import Mathlib

/-!
Verification of the orchestration logic of `spark_sql.py`: identifier
validation, CSV view-name derivation, SQL statement extraction, the
script-runner loop, the catalogue/describe reporters, and the `main`
pipeline.  Pure functions of the script are embedded as Lean functions;
the external Spark engine is abstracted as an oracle, and printing is
modelled as lists of output events.
-/

/-- True for the characters matched by the regex class `[A-Za-z_]`,
the first-character class of `_SAFE_IDENTIFIER` in `spark_sql.py`. -/
def isIdentStart (c : Char) : Bool :=
  ('A' ≤ c && c ≤ 'Z') || ('a' ≤ c && c ≤ 'z') || c = '_'

/-- True for the characters matched by the regex class `[A-Za-z0-9_]`,
the continuation class of `_SAFE_IDENTIFIER` in `spark_sql.py`. -/
def isIdentCont (c : Char) : Bool :=
  isIdentStart c || ('0' ≤ c && c ≤ '9')

/-- Strict matching of the regex body `[A-Za-z_][A-Za-z0-9_]*` against a
whole character list: nonempty, first char in the start class, remaining
chars in the continuation class. -/
def matchesIdentBody (l : List Char) : Bool :=
  match l with
  | [] => false
  | c :: cs => isIdentStart c && cs.all isIdentCont

/-- Embedding of `_SAFE_IDENTIFIER.match(s)` being truthy, i.e. Python
`re.match(r"^[A-Za-z_][A-Za-z0-9_]*$", s)`.  In Python `re`, `$` matches
at the end of the string or just before a single newline at the end, so
the validator accepts exactly the strict matches plus any strict match
followed by one trailing `'\n'`. -/
def pySafeIdentifierMatch (s : String) : Bool :=
  matchesIdentBody s.data ||
    (decide (s.data.getLast? = some '\n') && matchesIdentBody s.data.dropLast)

/-- The spec's reading of the pattern: `^[A-Za-z_][A-Za-z0-9_]*$` with
strict end anchoring (`$` = absolute end of string, as in `\z`). -/
def strictAnchoredMatch (s : String) : Bool :=
  matchesIdentBody s.data

example : pySafeIdentifierMatch "orders" = true := by decide
example : pySafeIdentifierMatch "_x9" = true := by decide
example : pySafeIdentifierMatch "2023-sales" = false := by decide
example : pySafeIdentifierMatch "a b" = false := by decide
example : pySafeIdentifierMatch "a;drop" = false := by decide
example : pySafeIdentifierMatch "" = false := by decide
example : pySafeIdentifierMatch "abc\n" = true := by decide
example : strictAnchoredMatch "abc\n" = false := by decide
example : pySafeIdentifierMatch "abc\n\n" = false := by decide

/-- The whitespace characters stripped by Python `str.strip()`. -/
def isPyWhitespace (c : Char) : Bool :=
  c = ' ' || c = '\t' || c = '\n' || c = '\r' || c = '\x0b' || c = '\x0c'

/-- Character-list version of Python `str.strip()`: drop leading and
trailing whitespace. -/
def stripChars (l : List Char) : List Char :=
  ((l.dropWhile isPyWhitespace).reverse.dropWhile isPyWhitespace).reverse

/-- Embedding of Python `str.strip()`. -/
def pyStrip (s : String) : String :=
  ⟨stripChars s.data⟩

/-- Prepend a character to the first line of a line list, creating the
line when the list is empty (used by `splitlines`). -/
def prependChar (c : Char) : List (List Char) → List (List Char)
  | [] => [[c]]
  | l :: ls => (c :: l) :: ls

/-- Embedding of Python `str.splitlines()` restricted to the line
terminators that occur in text files: a line ends at `'\n'`, `'\r'` or
`"\r\n"`, and a terminator at the very end of the string does not
produce a trailing empty line. -/
def splitlines : List Char → List (List Char)
  | [] => []
  | '\r' :: '\n' :: rest => [] :: splitlines rest
  | '\r' :: rest => [] :: splitlines rest
  | '\n' :: rest => [] :: splitlines rest
  | c :: rest => prependChar c (splitlines rest)

example : splitlines "a\n\nb".data = [['a'], [], ['b']] := by decide
example : splitlines "a\n".data = [['a']] := by decide
example : splitlines "".data = [] := by decide
example : splitlines "\n".data = [[]] := by decide
example : splitlines "a\r\nb".data = [['a'], ['b']] := by decide

/-- Python `s.split(";")` on character lists: split at every separator,
keeping empty fragments, so the result always has one more fragment than
there are separators. -/
def splitOnChar (sep : Char) : List Char → List (List Char)
  | [] => [[]]
  | c :: rest =>
    if c = sep then [] :: splitOnChar sep rest
    else prependChar c (splitOnChar sep rest)

example : splitOnChar ';' "a;;b".data = [['a'], [], ['b']] := by decide
example : splitOnChar ';' "".data = [[]] := by decide
example : splitOnChar ';' "ab".data = [['a', 'b']] := by decide

/-- Embedding of `line.startswith("--")` from `run_sql_file`: the
first two characters are both `'-'`; no trimming is applied to the line
before the check. -/
def lineIsCommentStart (l : List Char) : Bool :=
  match l with
  | c :: d :: _ => c == '-' && d == '-'
  | _ => false

/-- Embedding of the per-line test `line.startswith("--") or not
line.strip()` from `run_sql_file`. -/
def lineIsCommentOrBlank (l : List Char) : Bool :=
  lineIsCommentStart l || (stripChars l).isEmpty

/-- Embedding of the filter condition of the list comprehension in
`run_sql_file`, applied to an already-stripped fragment `t`:
`stmt.strip() and not all(line.startswith("--") or not line.strip() for
line in stmt.strip().splitlines())`. -/
def isExecutableFragment (t : List Char) : Bool :=
  !t.isEmpty && !((splitlines t).all lineIsCommentOrBlank)

/-- Embedding of the statement extraction in `run_sql_file` (lines
95-102): split the file content on `';'`, strip each fragment, keep the
executable ones.  The source filters on the unstripped fragment but the
condition reads it only through `stmt.strip()`, so stripping first and
then filtering is the same computation. -/
def extractStatements (content : String) : List String :=
  (((splitOnChar ';' content.data).map stripChars).filter
      isExecutableFragment).map (fun l => ⟨l⟩)

example :
    extractStatements "SELECT 1; -- comment only\n; SELECT 2;" =
      ["SELECT 1", "SELECT 2"] := by decide

/-- Statement extraction as the spec words it: identical to
`extractStatements` except that a line counts as a comment line when it
starts with `--` AFTER trimming its leading whitespace. -/
def extractStatementsSpecTrimmed (content : String) : List String :=
  (((splitOnChar ';' content.data).map stripChars).filter
      (fun t => !t.isEmpty &&
        !((splitlines t).all fun l =>
          lineIsCommentStart (stripChars l) || (stripChars l).isEmpty))).map
    (fun l => ⟨l⟩)

/-- Spec-worded formulation of the untrimmed comment-line test, used to
state the amended extraction rule independently of the pattern-match in
`lineIsCommentStart`: the first two characters of the line are `--`. -/
def specLineStartsWithDashDash (l : List Char) : Bool :=
  decide (l.take 2 = ['-', '-'])

/-- Statement extraction as amended: the comment-line test takes the
line verbatim (no per-line trimming before the `--` check). -/
def extractStatementsAmendedSpec (content : String) : List String :=
  (((splitOnChar ';' content.data).map stripChars).filter
      (fun t => !t.isEmpty &&
        !((splitlines t).all fun l =>
          specLineStartsWithDashDash l || (stripChars l).isEmpty))).map
    (fun l => ⟨l⟩)

example : extractStatements "-- a\n -- b" = ["-- a\n -- b"] := by decide
example : extractStatementsSpecTrimmed "-- a\n -- b" = [] := by decide

/-- Embedding of the statement preview on line 110 of `run_sql_file`:
`stmt[:120]` followed by `...` exactly when the statement is longer than
120 characters. -/
def previewOf (stmt : String) : String :=
  ⟨stmt.data.take 120⟩ ++ (if 120 < stmt.data.length then "..." else "")

example : previewOf "SELECT 1" = "SELECT 1" := by decide

/-- Abstract tabular result returned by the external engine for one
statement: the column list (used by `if result.columns:`) and rows. -/
structure QueryResult where
  columns : List String
  rows : List (List String)
  deriving DecidableEq

/-- Output produced by the per-statement loop of `run_sql_file`. -/
inductive RunEvent where
  | preview (text : String)
  | shown (r : QueryResult)
  | errorLine (msg : String)
  deriving DecidableEq

/-- Embedding of one iteration of the statement loop in `run_sql_file`
(lines 109-117): print the preview, call `spark.sql`, show the result
when it has columns, and on an exception print an error line instead. -/
def runStatement (engine : String → Except String QueryResult)
    (stmt : String) : List RunEvent :=
  RunEvent.preview (previewOf stmt) ::
    (match engine stmt with
     | Except.ok r => if r.columns.isEmpty then [] else [RunEvent.shown r]
     | Except.error msg => [RunEvent.errorLine msg])

/-- Embedding of the whole statement loop: the produced output together
with the trace of statements passed to `spark.sql`, in order. -/
def runStatements (engine : String → Except String QueryResult) :
    List String → List RunEvent × List String
  | [] => ([], [])
  | s :: rest =>
    let r := runStatements engine rest
    (runStatement engine s ++ r.1, s :: r.2)

/-- Output lines of `run_sql_file` beyond the per-statement events. -/
inductive FileRunEvent where
  | warnNotFound (file : String)
  | infoNoStatements (file : String)
  | startBanner (file : String)
  | stmtEvent (e : RunEvent)
  | doneBanner (file : String)
  deriving DecidableEq

/-- Embedding of `run_sql_file` (lines 82-118).  The filesystem is
modelled by `content`: `none` when `os.path.isfile` is false, otherwise
the text read from the file.  Returns the printed output and the trace
of statements passed to `spark.sql`. -/
def run_sql_file (engine : String → Except String QueryResult)
    (sqlFile : String) (content : Option String) :
    List FileRunEvent × List String :=
  match content with
  | none => ([FileRunEvent.warnNotFound sqlFile], [])
  | some c =>
    let stmts := extractStatements c
    if stmts.isEmpty then ([FileRunEvent.infoNoStatements sqlFile], [])
    else
      let r := runStatements engine stmts
      (FileRunEvent.startBanner sqlFile ::
        (r.1.map FileRunEvent.stmtEvent ++ [FileRunEvent.doneBanner sqlFile]),
       r.2)

/-- Embedding of `os.path.basename`: the part after the last `'/'`. -/
def basenameChars (l : List Char) : List Char :=
  (l.reverse.takeWhile (fun c => c ≠ '/')).reverse

/-- Index of the last `'.'` in a character list, if any. -/
def lastDotIdx (l : List Char) : Option Nat :=
  match l.reverse.findIdx? (fun c => c = '.') with
  | none => none
  | some j => some (l.length - 1 - j)

/-- Embedding of `os.path.splitext(p)[0]` for a path without
separators: the extension starts at the last dot, unless every
character before that dot is itself a dot (so dot-files such as `.csv`
keep their whole name as the root). -/
def splitextRootChars (l : List Char) : List Char :=
  match lastDotIdx l with
  | none => l
  | some i => if (l.takeWhile (fun c => c = '.')).length < i then l.take i else l

/-- Embedding of the view-name derivation on line 45 of
`load_csv_files`: `os.path.splitext(os.path.basename(path))[0]`. -/
def deriveTableName (path : String) : String :=
  ⟨splitextRootChars (basenameChars path.data)⟩

example : deriveTableName "data/orders.csv" = "orders" := by decide
example : deriveTableName "data/a.b.csv" = "a.b" := by decide
example : deriveTableName "data/.csv" = ".csv" := by decide
example : deriveTableName "data/2023-sales.csv" = "2023-sales" := by decide

/-- Output and registration actions of `load_csv_files`. -/
inductive LoadEvent where
  | infoNoCsvFound (dir : String)
  | warnSkip (path : String) (name : String)
  | registered (path : String) (name : String)
  deriving DecidableEq

/-- Embedding of one iteration of the loop in `load_csv_files` (lines
44-52): derive the view name, register it when it passes the validator,
otherwise warn and skip. -/
def loadOne (path : String) : LoadEvent :=
  let name := deriveTableName path
  if pySafeIdentifierMatch name then LoadEvent.registered path name
  else LoadEvent.warnSkip path name

/-- Embedding of `load_csv_files` (lines 33-52) on the list of paths
returned by `glob.glob(os.path.join(data_dir, "*.csv"))`. -/
def load_csv_files (dataDir : String) (csvFiles : List String) :
    List LoadEvent :=
  if csvFiles.isEmpty then [LoadEvent.infoNoCsvFound dataDir]
  else csvFiles.map loadOne

/-- Names registered as views by a run of the loader. -/
def registeredViews (evs : List LoadEvent) : List String :=
  evs.filterMap fun e =>
    match e with
    | LoadEvent.registered _ n => some n
    | _ => none

/-- True when a character list ends with `.csv`. -/
def endsWithCsv (l : List Char) : Bool :=
  match l.reverse with
  | 'v' :: 's' :: 'c' :: '.' :: _ => true
  | _ => false

/-- True when a file name starts with a dot (a hidden file). -/
def isHiddenName (l : List Char) : Bool :=
  match l with
  | '.' :: _ => true
  | _ => false

/-- Embedding of `glob.glob(os.path.join(data_dir, "*.csv"))` applied
to a directory listing: `*` matches any run of characters except a
leading dot, so the pattern selects exactly the non-hidden names ending
in `.csv`; matches are returned joined to the directory. -/
def globCsvFiles (dataDir : String) (listing : List String) : List String :=
  (listing.filter (fun name => endsWithCsv name.data && !isHiddenName name.data)).map
    (fun name => dataDir ++ "/" ++ name)

/-- Catalogue entry as returned by `spark.catalog.listTables()`. -/
structure TableInfo where
  name : String
  database : Option String
  tableType : String
  deriving DecidableEq

/-- Output lines of `show_tables`. -/
inductive CatalogueLine where
  | header
  | noTables
  | tableLine (name : String) (database : String) (ttype : String)
  | footer
  deriving DecidableEq

/-- Embedding of `show_tables` (lines 55-64): header, the explicit
`(no tables registered)` line when the catalogue is empty, one line per
table with the database defaulted, and a footer. -/
def show_tables (tables : List TableInfo) : List CatalogueLine :=
  CatalogueLine.header ::
    ((if tables.isEmpty then [CatalogueLine.noTables] else []) ++
      tables.map (fun t =>
        CatalogueLine.tableLine t.name (t.database.getD "default") t.tableType) ++
      [CatalogueLine.footer])

/-- Output and engine calls of `describe_tables`. -/
inductive DescribeEvent where
  | warnSkip (name : String)
  | schemaHeader (name : String)
  | sqlRun (query : String)
  | previewHeader (name : String)
  deriving DecidableEq

/-- The schema-description query interpolated on line 77. -/
def describeSQL (name : String) : String :=
  "DESCRIBE `" ++ name ++ "`"

/-- The row-preview query interpolated on line 79. -/
def previewSQL (name : String) : String :=
  "SELECT * FROM `" ++ name ++ "` LIMIT 5"

/-- Embedding of one iteration of `describe_tables` (lines 69-79):
re-validate the catalogue name before interpolation; on failure warn
and skip, otherwise run exactly the schema query and the 5-row preview
query. -/
def describeOne (name : String) : List DescribeEvent :=
  if pySafeIdentifierMatch name then
    [DescribeEvent.schemaHeader name,
     DescribeEvent.sqlRun (describeSQL name),
     DescribeEvent.previewHeader name,
     DescribeEvent.sqlRun (previewSQL name)]
  else [DescribeEvent.warnSkip name]

/-- Embedding of `describe_tables` over the catalogue's view names. -/
def describe_tables (names : List String) : List DescribeEvent :=
  names.flatMap describeOne

/-- The SQL texts passed to `spark.sql` during a describe run. -/
def describeQueries (evs : List DescribeEvent) : List String :=
  evs.filterMap fun e =>
    match e with
    | DescribeEvent.sqlRun q => some q
    | _ => none

/-- The successive steps of `main` (lines 121-137). -/
inductive MainStep where
  | createSession
  | setLogLevel
  | loadCsv
  | showTablesStep
  | describeStep
  | runSqlStep
  | stopSession
  deriving DecidableEq

/-- Python sequencing of one statement of `main`: when no exception is
pending and the step succeeds, the step completes and is recorded; when
it raises, the exception is stored and every later statement —
`spark.stop()` included, since `main` has no `try`/`finally` — is
skipped. -/
def mainStepRun (cur : List MainStep × Option String) (s : MainStep)
    (r : Except String Unit) : List MainStep × Option String :=
  match cur.2 with
  | some e => (cur.1, some e)
  | none =>
    match r with
    | Except.ok _ => (cur.1 ++ [s], none)
    | Except.error e => (cur.1, some e)

/-- Embedding of `main` (lines 121-137): the session is created and its
log level set, then the four pipeline steps run in order, then
`spark.stop()`.  Each pipeline step's interaction with the engine is
abstracted as an `Except` outcome; the returned pair is the list of
completed steps and the uncaught exception, if any. -/
def mainRun (load showT desc run : Except String Unit) :
    List MainStep × Option String :=
  mainStepRun
    (mainStepRun
      (mainStepRun
        (mainStepRun
          (mainStepRun
            (mainStepRun ([], none) MainStep.createSession (Except.ok ()))
            MainStep.setLogLevel (Except.ok ()))
          MainStep.loadCsv load)
        MainStep.showTablesStep showT)
      MainStep.describeStep desc)
    MainStep.runSqlStep run
  |> fun cur => mainStepRun cur MainStep.stopSession (Except.ok ())

example :
    mainRun (Except.ok ()) (Except.ok ()) (Except.ok ()) (Except.ok ()) =
      ([MainStep.createSession, MainStep.setLogLevel, MainStep.loadCsv,
        MainStep.showTablesStep, MainStep.describeStep, MainStep.runSqlStep,
        MainStep.stopSession], none) := by decide

example :
    mainRun (Except.error "boom") (Except.ok ()) (Except.ok ()) (Except.ok ()) =
      ([MainStep.createSession, MainStep.setLogLevel], some "boom") := by decide

/-- The ten ASCII digit characters. -/
def asciiDigits : List Char :=
  ['0', '1', '2', '3', '4', '5', '6', '7', '8', '9']

theorem identCont_of_identStart {c : Char} (h : isIdentStart c = true) :
    isIdentCont c = true := by
  simp [isIdentCont, h]

theorem identCont_of_mem_matchesIdentBody {l : List Char}
    (h : matchesIdentBody l = true) {c : Char} (hc : c ∈ l) :
    isIdentCont c = true := by
  cases l with
  | nil => exact absurd hc (List.not_mem_nil c)
  | cons a as =>
    simp only [matchesIdentBody, Bool.and_eq_true, List.all_eq_true] at h
    rcases List.mem_cons.mp hc with rfl | hmem
    · exact identCont_of_identStart h.1
    · exact h.2 c hmem

theorem identStart_of_head_matchesIdentBody {l : List Char}
    (h : matchesIdentBody l = true) {c : Char} (hc : l.head? = some c) :
    isIdentStart c = true := by
  cases l with
  | nil => simp at hc
  | cons a as =>
    simp only [List.head?_cons, Option.some.injEq] at hc
    subst hc
    simp only [matchesIdentBody, Bool.and_eq_true] at h
    exact h.1

theorem mem_of_pySafeIdentifierMatch {s : String}
    (h : pySafeIdentifierMatch s = true) {c : Char} (hc : c ∈ s.data) :
    isIdentCont c = true ∨ c = '\n' := by
  rw [pySafeIdentifierMatch, Bool.or_eq_true] at h
  rcases h with h | h
  · exact Or.inl (identCont_of_mem_matchesIdentBody h hc)
  · rw [Bool.and_eq_true, decide_eq_true_eq] at h
    obtain ⟨hlast, hbody⟩ := h
    have hl : s.data.dropLast ++ ['\n'] = s.data :=
      List.dropLast_append_getLast? _ (Option.mem_def.mpr hlast)
    have hc' : c ∈ s.data.dropLast ++ ['\n'] := by rw [hl]; exact hc
    rcases List.mem_append.mp hc' with hmem | hmem
    · exact Or.inl (identCont_of_mem_matchesIdentBody hbody hmem)
    · right
      simpa using hmem

theorem identStart_head_of_pySafeIdentifierMatch {s : String}
    (h : pySafeIdentifierMatch s = true) {c : Char}
    (hc : s.data.head? = some c) : isIdentStart c = true := by
  rw [pySafeIdentifierMatch, Bool.or_eq_true] at h
  rcases h with h | h
  · exact identStart_of_head_matchesIdentBody h hc
  · rw [Bool.and_eq_true, decide_eq_true_eq] at h
    obtain ⟨hlast, hbody⟩ := h
    have hl : s.data.dropLast ++ ['\n'] = s.data :=
      List.dropLast_append_getLast? _ (Option.mem_def.mpr hlast)
    cases hdl : s.data.dropLast with
    | nil =>
      rw [hdl] at hbody
      exact absurd hbody (by decide)
    | cons a as =>
      rw [hdl] at hl hbody
      have ha : s.data.head? = some a := by
        rw [← hl]
        rfl
      rw [ha, Option.some.injEq] at hc
      subst hc
      exact identStart_of_head_matchesIdentBody hbody rfl

theorem isIdentStart_of_digit {d : Char} (hd : d ∈ asciiDigits) :
    isIdentStart d = false := by
  fin_cases hd <;> decide

/-- C1 counterexample: the validator is not strictly end-anchored.  In
Python `re`, `$` also matches just before a trailing newline, so the
candidate name `"abc\n"` is accepted by `_SAFE_IDENTIFIER.match` even
though it does not match `^[A-Za-z_][A-Za-z0-9_]*$` under strict end
anchoring. -/
theorem C1_identifier_validator_counterexample :
    pySafeIdentifierMatch "abc\n" = true ∧
      strictAnchoredMatch "abc\n" = false := by
  decide

/-- C1 amended: the identifier validator accepts a candidate name iff
the name matches `[A-Za-z_][A-Za-z0-9_]*` exactly, or does so after
removing a single trailing newline (Python `$` semantics); every name
containing a hyphen, a space, or a SQL metacharacter (semicolon, single
or double quote), and every name starting with a digit, is rejected. -/
theorem C1_identifier_validator_amended (s : String) :
    (pySafeIdentifierMatch s = true ↔
      (strictAnchoredMatch s = true ∨
        ∃ t : String, s = t ++ "\n" ∧ strictAnchoredMatch t = true)) ∧
    ((∃ c ∈ s.data, c ∈ ['-', ' ', ';', '\x27', '\x22']) →
      pySafeIdentifierMatch s = false) ∧
    (∀ d ∈ asciiDigits, s.data.head? = some d →
      pySafeIdentifierMatch s = false) := by
  refine ⟨⟨fun h => ?_, fun h => ?_⟩, fun h => ?_, fun d hd hhead => ?_⟩
  · rw [pySafeIdentifierMatch, Bool.or_eq_true] at h
    rcases h with h | h
    · exact Or.inl h
    · rw [Bool.and_eq_true, decide_eq_true_eq] at h
      obtain ⟨hlast, hbody⟩ := h
      refine Or.inr ⟨⟨s.data.dropLast⟩, ?_, hbody⟩
      apply String.ext
      rw [String.data_append]
      exact (List.dropLast_append_getLast? _ (Option.mem_def.mpr hlast)).symm
  · rcases h with h | ⟨t, rfl, ht⟩
    · rw [pySafeIdentifierMatch, Bool.or_eq_true]
      exact Or.inl h
    · rw [pySafeIdentifierMatch, Bool.or_eq_true]
      right
      rw [Bool.and_eq_true, decide_eq_true_eq]
      rw [String.data_append]
      exact ⟨List.getLast?_concat _, by rw [List.dropLast_concat]; exact ht⟩
  · cases hm : pySafeIdentifierMatch s with
    | false => rfl
    | true =>
      exfalso
      obtain ⟨c, hc, hcm⟩ := h
      rcases mem_of_pySafeIdentifierMatch hm hc with hcont | hnl
      · fin_cases hcm <;> exact absurd hcont (by decide)
      · fin_cases hcm <;> exact absurd hnl (by decide)
  · cases hm : pySafeIdentifierMatch s with
    | false => rfl
    | true =>
      exfalso
      have hstart := identStart_head_of_pySafeIdentifierMatch hm hhead
      rw [isIdentStart_of_digit hd] at hstart
      exact absurd hstart (by decide)

/-- C1 amended witness: the validator rejects `"a-b"` (hyphen) and
`"2023"` (leading digit). -/
theorem C1_identifier_validator_amended_witness :
    pySafeIdentifierMatch "a-b" = false ∧
      pySafeIdentifierMatch "2023" = false :=
  ⟨(C1_identifier_validator_amended "a-b").2.1 ⟨'-', by decide, by decide⟩,
   (C1_identifier_validator_amended "2023").2.2 '2' (by decide) (by decide)⟩

theorem lineIsCommentStart_eq_take (l : List Char) :
    lineIsCommentStart l = specLineStartsWithDashDash l := by
  rcases l with _ | ⟨c, _ | ⟨d, rest⟩⟩
  · rfl
  · simp [lineIsCommentStart, specLineStartsWithDashDash]
  · by_cases hc : c = '-' <;> by_cases hd : d = '-' <;>
      simp [lineIsCommentStart, specLineStartsWithDashDash, hc, hd]

theorem extractStatements_eq_amendedSpec (content : String) :
    extractStatements content = extractStatementsAmendedSpec content := by
  have hfun : lineIsCommentOrBlank =
      fun l => specLineStartsWithDashDash l || (stripChars l).isEmpty := by
    funext l
    rw [lineIsCommentOrBlank, lineIsCommentStart_eq_take]
  have hpred : isExecutableFragment = fun t =>
      !t.isEmpty && !((splitlines t).all fun l =>
        specLineStartsWithDashDash l || (stripChars l).isEmpty) := by
    funext t
    rw [isExecutableFragment, hfun]
  rw [extractStatements, extractStatementsAmendedSpec, hpred]

/-- C2 counterexample: the code checks `line.startswith("--")` without
trimming the line first, so a fragment whose second comment line is
indented is NOT discarded, while the claim's rule (comment line =
starts with `--` after trimming) would discard it. -/
theorem C2_statement_extraction_counterexample :
    extractStatements "-- a\n -- b" = ["-- a\n -- b"] ∧
      extractStatementsSpecTrimmed "-- a\n -- b" = [] := by
  decide

/-- C2 amended: statement extraction splits on `';'`, trims each
fragment, and discards exactly the fragments that are empty or consist
entirely of comment lines or blank lines, where a comment line is one
whose first two characters are `--` VERBATIM (no per-line trimming; the
fragment-level trim only affects the first line); the given example
content still yields exactly `SELECT 1` and `SELECT 2`, in order. -/
theorem C2_statement_extraction_amended (content : String) :
    extractStatements "SELECT 1; -- comment only\n; SELECT 2;" =
        ["SELECT 1", "SELECT 2"] ∧
      extractStatements content = extractStatementsAmendedSpec content :=
  ⟨by decide, extractStatements_eq_amendedSpec content⟩

/-- C3: the statement loop of `run_sql_file` passes every extracted
statement to the engine in file order (the call trace equals the
statement list, whatever the engine answers), the output is the
concatenation of the independent per-statement blocks, and a statement
on which the engine raises contributes its preview followed by an error
line carrying the error message — so a failing statement never prevents
any later statement from being executed and displayed. -/
theorem C3_continue_on_error (engine : String → Except String QueryResult)
    (stmts : List String) :
    (runStatements engine stmts).2 = stmts ∧
    (runStatements engine stmts).1 = stmts.flatMap (runStatement engine) ∧
    (∀ s msg, engine s = Except.error msg →
      runStatement engine s =
        [RunEvent.preview (previewOf s), RunEvent.errorLine msg]) := by
  refine ⟨?_, ?_, fun s msg h => ?_⟩
  · induction stmts with
    | nil => rfl
    | cons s rest ih => simp [runStatements, ih]
  · induction stmts with
    | nil => rfl
    | cons s rest ih => simp [runStatements, ih]
  · simp [runStatement, h]

/-- Concrete engine used by witnesses: fails on the statement `BAD`
with message `boom`, answers a one-column one-row table otherwise. -/
def demoEngine : String → Except String QueryResult :=
  fun s =>
    if s = "BAD" then Except.error "boom"
    else Except.ok ⟨["c"], [["1"]]⟩

/-- C3 witness: with a two-statement batch whose first statement fails,
both statements reach the engine in order and the failing one yields a
preview plus an error line. -/
theorem C3_continue_on_error_witness :
    (runStatements demoEngine ["BAD", "SELECT 1"]).2 = ["BAD", "SELECT 1"] ∧
      runStatement demoEngine "BAD" =
        [RunEvent.preview (previewOf "BAD"), RunEvent.errorLine "boom"] :=
  ⟨(C3_continue_on_error demoEngine ["BAD", "SELECT 1"]).1,
   (C3_continue_on_error demoEngine ["BAD", "SELECT 1"]).2.2 "BAD" "boom" rfl⟩

/-- C4 counterexample: `main` has no `try`/`finally`, so when the
loading step raises, the exception propagates and `spark.stop()` is
never executed — the teardown is not unconditional. -/
theorem C4_session_teardown_counterexample :
    MainStep.stopSession ∉
      (mainRun (Except.error "boom") (Except.ok ())
        (Except.ok ()) (Except.ok ())).1 := by
  decide

/-- C4 amended: the session is created once at the start of `main` and,
whenever every intermediate step completes without raising, stopped
exactly once as the very last step; since there is no `try`/`finally`,
an exception raised by an intermediate step propagates out of `main`
and the stop step is skipped, so the teardown is conditional on normal
completion. -/
theorem C4_session_teardown_amended (load showT desc run : Except String Unit) :
    ((mainRun load showT desc run).2 = none →
      (mainRun load showT desc run).1 =
        [MainStep.createSession, MainStep.setLogLevel, MainStep.loadCsv,
         MainStep.showTablesStep, MainStep.describeStep, MainStep.runSqlStep,
         MainStep.stopSession]) ∧
    ((mainRun load showT desc run).1.count MainStep.stopSession ≤ 1) ∧
    (∀ e, (mainRun load showT desc run).2 = some e →
      MainStep.stopSession ∉ (mainRun load showT desc run).1) ∧
    (mainRun load showT desc run).1.head? = some MainStep.createSession := by
  rcases load with _ | le <;> rcases showT with _ | se <;>
    rcases desc with _ | de <;> rcases run with _ | re <;>
      refine ⟨fun h => ?_, ?_, fun e he => ?_, ?_⟩ <;>
        simp_all [mainRun, mainStepRun]

/-- C4 amended witness: on a run where every step succeeds, the
completed steps are exactly the pipeline in order with the stop at the
very end. -/
theorem C4_session_teardown_amended_witness :
    (mainRun (Except.ok ()) (Except.ok ()) (Except.ok ()) (Except.ok ())).1 =
      [MainStep.createSession, MainStep.setLogLevel, MainStep.loadCsv,
       MainStep.showTablesStep, MainStep.describeStep, MainStep.runSqlStep,
       MainStep.stopSession] :=
  (C4_session_teardown_amended (Except.ok ()) (Except.ok ())
    (Except.ok ()) (Except.ok ())).1 rfl

theorem describeQueries_append (a b : List DescribeEvent) :
    describeQueries (a ++ b) = describeQueries a ++ describeQueries b := by
  simp [describeQueries]

theorem describeQueries_describe_tables (names : List String) :
    describeQueries (describe_tables names) =
      (names.filter pySafeIdentifierMatch).flatMap
        (fun n => [describeSQL n, previewSQL n]) := by
  induction names with
  | nil => rfl
  | cons n rest ih =>
    rw [describe_tables, List.flatMap_cons, describeQueries_append,
      show rest.flatMap describeOne = describe_tables rest from rfl, ih]
    by_cases h : pySafeIdentifierMatch n = true
    · rw [List.filter_cons_of_pos h, List.flatMap_cons]
      congr 1
      simp [describeOne, h, describeQueries]
    · rw [List.filter_cons_of_neg (by simp [h])]
      simp [describeOne, h, describeQueries]

/-- C5: for every view name reported by the catalogue, `describe_tables`
re-validates the name before interpolating it; the SQL texts passed to
the engine are exactly one schema-description query and one 5-row
preview query per VALID name, an invalid name produces only a warning
(its whole per-view output is the warning line), and every query that
is run interpolates a name that passed the validator. -/
theorem C5_describe_revalidation (names : List String) :
    (describeQueries (describe_tables names) =
      (names.filter pySafeIdentifierMatch).flatMap
        (fun n => [describeSQL n, previewSQL n])) ∧
    (∀ n ∈ names, pySafeIdentifierMatch n = false →
      DescribeEvent.warnSkip n ∈ describe_tables names ∧
      describeOne n = [DescribeEvent.warnSkip n]) ∧
    (∀ q, DescribeEvent.sqlRun q ∈ describe_tables names →
      ∃ n, n ∈ names ∧ pySafeIdentifierMatch n = true ∧
        (q = describeSQL n ∨ q = previewSQL n)) := by
  refine ⟨describeQueries_describe_tables names,
    fun n hn hinv => ⟨?_, ?_⟩, fun q hq => ?_⟩
  · rw [describe_tables]
    exact List.mem_flatMap.mpr ⟨n, hn, by simp [describeOne, hinv]⟩
  · simp [describeOne, hinv]
  · rw [describe_tables] at hq
    obtain ⟨n, hn, hev⟩ := List.mem_flatMap.mp hq
    by_cases h : pySafeIdentifierMatch n = true
    · refine ⟨n, hn, h, ?_⟩
      simp [describeOne, h] at hev
      exact hev
    · simp [describeOne, h] at hev

/-- C5 witness: on the catalogue `["orders", "2023-sales"]`, the only
queries run are the two for `orders`, and `2023-sales` yields exactly a
warning. -/
theorem C5_describe_revalidation_witness :
    (describeQueries (describe_tables ["orders", "2023-sales"]) =
      ["DESCRIBE `orders`", "SELECT * FROM `orders` LIMIT 5"]) ∧
    DescribeEvent.warnSkip "2023-sales" ∈
      describe_tables ["orders", "2023-sales"] ∧
    (∃ n, n ∈ ["orders", "2023-sales"] ∧ pySafeIdentifierMatch n = true ∧
      ("DESCRIBE `orders`" = describeSQL n ∨
        "DESCRIBE `orders`" = previewSQL n)) :=
  ⟨by rw [(C5_describe_revalidation ["orders", "2023-sales"]).1]; decide,
   ((C5_describe_revalidation ["orders", "2023-sales"]).2.1 "2023-sales"
     (by decide) (by decide)).1,
   (C5_describe_revalidation ["orders", "2023-sales"]).2.2 "DESCRIBE `orders`"
     (by decide)⟩

theorem registeredViews_cons (e : LoadEvent) (evs : List LoadEvent) :
    registeredViews (e :: evs) =
      (match e with
       | LoadEvent.registered _ n => [n]
       | _ => []) ++ registeredViews evs := by
  cases e <;> simp [registeredViews]

theorem registeredViews_map_loadOne (l : List String) :
    registeredViews (l.map loadOne) =
      (l.map deriveTableName).filter pySafeIdentifierMatch := by
  induction l with
  | nil => rfl
  | cons p rest ih =>
    rw [List.map_cons, registeredViews_cons, List.map_cons]
    by_cases h : pySafeIdentifierMatch (deriveTableName p) = true
    · rw [List.filter_cons_of_pos h, ih]
      simp [loadOne, h]
    · rw [List.filter_cons_of_neg (by simp [h]), ih]
      simp [loadOne, h]

/-- C6: the Table Loader registers a view exactly for the CSV files
whose derived base name passes the identifier validator and skips each
failing file with a warning; on the glob result for a directory holding
`orders.csv`, `2023-sales.csv` and `items.csv`, exactly the views
`orders` and `items` are registered and `2023-sales.csv` is skipped
with a warning. -/
theorem C6_loader_filters_by_identifier (csvFiles : List String) :
    (registeredViews (load_csv_files "data" csvFiles) =
      (csvFiles.map deriveTableName).filter pySafeIdentifierMatch) ∧
    (∀ path ∈ csvFiles, pySafeIdentifierMatch (deriveTableName path) = false →
      loadOne path = LoadEvent.warnSkip path (deriveTableName path) ∧
      LoadEvent.warnSkip path (deriveTableName path) ∈
        load_csv_files "data" csvFiles) ∧
    (load_csv_files "data"
        (globCsvFiles "data" ["orders.csv", "2023-sales.csv", "items.csv"]) =
      [LoadEvent.registered "data/orders.csv" "orders",
       LoadEvent.warnSkip "data/2023-sales.csv" "2023-sales",
       LoadEvent.registered "data/items.csv" "items"]) ∧
    registeredViews
        (load_csv_files "data"
          (globCsvFiles "data" ["orders.csv", "2023-sales.csv", "items.csv"])) =
      ["orders", "items"] := by
  refine ⟨?_, fun path hp hinv => ⟨by simp [loadOne, hinv], ?_⟩,
    by decide, by decide⟩
  · cases csvFiles with
    | nil => rfl
    | cons p rest =>
      rw [show load_csv_files "data" (p :: rest) = (p :: rest).map loadOne
        from rfl]
      exact registeredViews_map_loadOne _
  · cases csvFiles with
    | nil => exact absurd hp (List.not_mem_nil path)
    | cons p rest =>
      rw [show load_csv_files "data" (p :: rest) = (p :: rest).map loadOne
        from rfl]
      exact List.mem_map.mpr ⟨path, hp, by simp [loadOne, hinv]⟩

/-- C6 witness: the failing file `2023-sales.csv` is skipped with a
warning by the loader on a concrete file list. -/
theorem C6_loader_filters_by_identifier_witness :
    loadOne "data/2023-sales.csv" =
      LoadEvent.warnSkip "data/2023-sales.csv"
        (deriveTableName "data/2023-sales.csv") ∧
    LoadEvent.warnSkip "data/2023-sales.csv"
        (deriveTableName "data/2023-sales.csv") ∈
      load_csv_files "data"
        ["data/orders.csv", "data/2023-sales.csv", "data/items.csv"] :=
  (C6_loader_filters_by_identifier
    ["data/orders.csv", "data/2023-sales.csv", "data/items.csv"]).2.1
    "data/2023-sales.csv" (by decide) (by decide)

/-- C7: when the script file does not exist (`content = none`), the
Script Runner prints exactly the warning line and returns; no file
content is read, no statement is passed to the engine, and the model
performs no other action, so views and session state are untouched. -/
theorem C7_missing_script_file (engine : String → Except String QueryResult)
    (sqlFile : String) :
    run_sql_file engine sqlFile none =
      ([FileRunEvent.warnNotFound sqlFile], []) := rfl

/-- C8: for an empty data directory the Table Loader emits the single
`no CSV files found` line and registers nothing, and the Catalogue
Reporter prints the explicit `no tables registered` line between its
header and footer. -/
theorem C8_empty_directory (dataDir : String) :
    load_csv_files dataDir [] = [LoadEvent.infoNoCsvFound dataDir] ∧
    registeredViews (load_csv_files dataDir []) = [] ∧
    show_tables [] =
      [CatalogueLine.header, CatalogueLine.noTables, CatalogueLine.footer] ∧
    globCsvFiles dataDir [] = [] :=
  ⟨rfl, rfl, rfl, rfl⟩

/-- C9: the printed preview of a statement is its first 120 characters
followed by an ellipsis exactly when the statement is longer than 120
characters; a statement of at most 120 characters is previewed in full
with no ellipsis. -/
theorem C9_preview_truncation (stmt : String) :
    (120 < stmt.data.length →
      previewOf stmt = String.mk (stmt.data.take 120) ++ "...") ∧
    (stmt.data.length ≤ 120 → previewOf stmt = stmt) := by
  constructor
  · intro h
    rw [previewOf, if_pos h]
  · intro h
    rw [previewOf, if_neg (Nat.not_lt.mpr h), List.take_of_length_le h,
      String.append_empty]

/-- A 121-character statement used by the C9 witness. -/
def longStmt : String :=
  ⟨List.replicate 121 'a'⟩

/-- C9 witness: a 121-character statement is truncated with an
ellipsis; `SELECT 1` is previewed in full. -/
theorem C9_preview_truncation_witness :
    previewOf longStmt = String.mk (longStmt.data.take 120) ++ "..." ∧
      previewOf "SELECT 1" = "SELECT 1" :=
  ⟨(C9_preview_truncation longStmt).1 (by decide),
   (C9_preview_truncation "SELECT 1").2 (by decide)⟩

/-- C10: view-name derivation strips only the last extension, so a CSV
file whose derived candidate still contains a dot — such as `a.b.csv`
(candidate `a.b`) or the dot-file `.csv` (candidate `.csv`, since
`os.path.splitext` keeps a leading-dot name whole) — fails the
identifier validator and is skipped with a warning, never registered. -/
theorem C10_last_extension_only (path : String) :
    ('.' ∈ (deriveTableName path).data →
      loadOne path = LoadEvent.warnSkip path (deriveTableName path)) ∧
    deriveTableName "data/a.b.csv" = "a.b" ∧
    loadOne "data/a.b.csv" = LoadEvent.warnSkip "data/a.b.csv" "a.b" ∧
    deriveTableName "data/.csv" = ".csv" ∧
    loadOne "data/.csv" = LoadEvent.warnSkip "data/.csv" ".csv" := by
  refine ⟨fun hdot => ?_, by decide, by decide, by decide, by decide⟩
  cases hm : pySafeIdentifierMatch (deriveTableName path) with
  | false => simp [loadOne, hm]
  | true =>
    exfalso
    rcases mem_of_pySafeIdentifierMatch hm hdot with hcont | hnl
    · exact absurd hcont (by decide)
    · exact absurd hnl (by decide)

/-- C10 witness: `a.b.csv` derives the dotted candidate `a.b` and is
skipped with a warning. -/
theorem C10_last_extension_only_witness :
    loadOne "data/a.b.csv" =
      LoadEvent.warnSkip "data/a.b.csv" (deriveTableName "data/a.b.csv") :=
  (C10_last_extension_only "data/a.b.csv").1 (by decide)









